import Mathlib

/-!
Verification of the real-time presence and message-delivery subsystem of the
yinet backend (`src/server.js` / `src/unnamed/part_000`, socket handlers
around lines 146-190).

The embedding is a direct shallow translation of the JavaScript:

* `onlineUsers` (a JS `Map` from user id to socket id) becomes an association
  list with `Map.set` / `Map.get` / `Map.delete` semantics (`mapSet`,
  `mapGet`, `mapDelete`).
* The PostgreSQL `messages` table and the single
  `INSERT INTO messages ... RETURNING *` call become `Store` and
  `insertMessage`.  A store round-trip can fail (outage); this environmental
  outcome is the `failing` flag.  The store assigns the row identifier and
  the creation timestamp, as the schema does with `gen_random_uuid()` and
  `CURRENT_TIMESTAMP` (modelled as a counter and a clock value).
* `socket.emit(...)` and `io.to(sid).emit(...)` are different transport
  calls in the source (direct write on the handling connection versus
  routing by socket id), so emissions are recorded as `Emit.direct` and
  `Emit.toRoom` respectively.
* The `send_message`, `connection` and `disconnect` handlers become the
  functions `send_message`, `handleConnect` and `handleDisconnect`; a
  `thrown field access on an absent message object` and a rejected insert
  both land in the handler's `catch` block, which only logs, so both are
  translated to returning the unchanged state with no emissions.
-/

/-- A persisted row of the `messages` table.  Columns as declared in the
schema: `sender_id`, `receiver_id` and `content` are nullable, `media_url`
defaults to NULL, `is_read` to FALSE, `status` to the supplied value, and
`id` / `created_at` are assigned by the store. -/
structure MessageRecord where
  id : Nat
  sender_id : Option String
  receiver_id : Option String
  content : Option String
  media_url : Option String
  is_read : Bool
  status : String
  created_at : Nat
deriving Repr, DecidableEq

/-- The durable message store reachable through `pool.query`.  `nextId` and
`now` model the server-assigned identifier and creation timestamp; `failing`
models a store outage (connectivity error), an environmental condition of
one round-trip. -/
structure Store where
  rows : List MessageRecord
  nextId : Nat
  now : Nat
  failing : Bool
deriving Repr, DecidableEq

/-- The row a successful `INSERT INTO messages (sender_id, receiver_id,
content, status) VALUES ($1,$2,$3,$4) RETURNING *` constructs and returns:
store-assigned id and creation timestamp, schema defaults NULL for
`media_url` and FALSE for `is_read`. -/
def insertedRecord (s : Store) (sender receiver content : Option String)
    (status : String) : MessageRecord :=
  ⟨s.nextId, sender, receiver, content, none, false, status, s.now⟩

/-- The insert round-trip.  JavaScript `undefined` arguments are sent as SQL
NULL by the driver, hence the `Option String` parameters; all three of those
columns are nullable, so the insert itself does not reject them.  Returns
`none` on a store failure, otherwise the store with the new row appended
together with the returned row. -/
def insertMessage (s : Store) (sender receiver content : Option String)
    (status : String) : Option (Store × MessageRecord) :=
  if s.failing then none
  else
    let r : MessageRecord := insertedRecord s sender receiver content status
    some ({ s with rows := s.rows ++ [r], nextId := s.nextId + 1 }, r)

/-- The wire payload `savedMsg`: all columns of the returned row, spread,
plus `text` aliasing `content`, `timestamp` as the epoch milliseconds of
`created_at`, and the fixed discriminator `type = "text"`. -/
structure SavedMsg where
  id : Nat
  sender_id : Option String
  receiver_id : Option String
  content : Option String
  media_url : Option String
  is_read : Bool
  status : String
  created_at : Nat
  text : Option String
  timestamp : Nat
  type : String
deriving Repr, DecidableEq

/-- Builds `savedMsg` from the row the store returned. -/
def buildSavedMsg (r : MessageRecord) : SavedMsg :=
  ⟨r.id, r.sender_id, r.receiver_id, r.content, r.media_url, r.is_read,
   r.status, r.created_at, r.content, r.created_at, "text"⟩

/-- One socket emission of a `receive_message` event.  `toRoom sid` is
`io.to(sid).emit('receive_message', _)` (routing by socket id, used for the
receiver); `direct sid` is `socket.emit('receive_message', _)` on the
handling connection whose id is `sid` (the sender's confirmation echo). -/
inductive Emit where
  | toRoom (socketId : String) (payload : SavedMsg)
  | direct (socketId : String) (payload : SavedMsg)
deriving Repr, DecidableEq

/-- True for an emission routed by socket id (`io.to(...).emit`). -/
def Emit.isToRoom : Emit → Bool
  | .toRoom _ _ => true
  | .direct _ _ => false

/-- True for an emission written directly on the handling connection
(`socket.emit`). -/
def Emit.isDirect : Emit → Bool
  | .toRoom _ _ => false
  | .direct _ _ => true

/-- `onlineUsers.set(k, v)`: JS `Map.set` updates the entry in place when
the key is present and appends a new entry otherwise. -/
def mapSet : List (String × String) → String → String → List (String × String)
  | [], k, v => [(k, v)]
  | (k', v') :: rest, k, v =>
      if k' = k then (k, v) :: rest else (k', v') :: mapSet rest k v

/-- `onlineUsers.get(k)`: JS `Map.get`, `none` when absent. -/
def mapGet : List (String × String) → String → Option String
  | [], _ => none
  | (k', v') :: rest, k => if k' = k then some v' else mapGet rest k

/-- `onlineUsers.delete(k)`: JS `Map.delete`, removes the entry for `k`. -/
def mapDelete : List (String × String) → String → List (String × String)
  | [], _ => []
  | (k', v') :: rest, k => if k' = k then rest else (k', v') :: mapDelete rest k

/-- The process state the socket handlers touch: the `onlineUsers` map and
the external message store. -/
structure ServerState where
  onlineUsers : List (String × String)
  store : Store
deriving Repr, DecidableEq

/-- The inner `message` object of a `send_message` payload:
`{ senderId, text }`, either field possibly absent. -/
structure MsgInner where
  senderId : Option String
  text : Option String
deriving Repr, DecidableEq

/-- The full `send_message` payload `{ message, receiverId }`.  A payload
whose `message` object is absent makes `message.senderId` throw in the
handler (caught by its `catch`). -/
structure SendPayload where
  message : Option MsgInner
  receiverId : Option String
deriving Repr, DecidableEq

/-- The `send_message` handler, lines 156-182 of `src/unnamed/part_000`.
`socketSelf` is the id of the connection the event arrived on.  Returns the
new state and the list of `receive_message` emissions in program order.
An absent `message` object (thrown field access) and a failed insert both
reach the `catch` block, which only logs: no emission, state unchanged. -/
def send_message (st : ServerState) (socketSelf : String) (p : SendPayload) :
    ServerState × List Emit :=
  match p.message with
  | none => (st, [])
  | some m =>
    match insertMessage st.store m.senderId p.receiverId m.text "sent" with
    | none => (st, [])
    | some (store', r) =>
      let savedMsg := buildSavedMsg r
      let deliveries :=
        match p.receiverId.bind (fun rid => mapGet st.onlineUsers rid) with
        | some receiverSocketId => [Emit.toRoom receiverSocketId savedMsg]
        | none => []
      ({ st with store := store' }, deliveries ++ [Emit.direct socketSelf savedMsg])

/-- The `connection` handler's registration step, lines 149-154: the user id
comes from `socket.handshake.query.userId`; `if (userId)` guards against both
an absent id and the empty string (falsy in JS). -/
def handleConnect (st : ServerState) (userId : Option String)
    (socketId : String) : ServerState :=
  match userId with
  | some u =>
      if u = "" then st
      else { st with onlineUsers := mapSet st.onlineUsers u socketId }
  | none => st

/-- The `disconnect` handler, lines 184-189: deletes by the captured
`userId` alone.  `_socketId` — the id of the disconnecting connection — is in
scope in the source closure but unused: the delete is not conditioned on the
disconnecting connection being the one currently mapped. -/
def handleDisconnect (st : ServerState) (userId : Option String)
    (_socketId : String) : ServerState :=
  match userId with
  | some u => if u = "" then st else { st with onlineUsers := mapDelete st.onlineUsers u }
  | none => st

/-- An event of the socket layer, as the handlers see it.  A `disconnect`
carries the user id captured at connection time and the disconnecting
socket's id. -/
inductive Event where
  | connect (userId : Option String) (socketId : String)
  | send (socketSelf : String) (p : SendPayload)
  | disconnect (userId : Option String) (socketId : String)
deriving Repr, DecidableEq

/-- One event handled to completion. -/
def step (st : ServerState) (e : Event) : ServerState :=
  match e with
  | .connect u sid => handleConnect st u sid
  | .send s p => (send_message st s p).1
  | .disconnect u sid => handleDisconnect st u sid

/-- An arbitrary interleaving of events handled in sequence. -/
def run (st : ServerState) : List Event → ServerState
  | [] => st
  | e :: es => run (step st e) es

/-- Process start: empty presence map, empty store, store reachable. -/
def initialState : ServerState :=
  ⟨[], ⟨[], 0, 0, false⟩⟩

/-- The keys of the presence map. -/
def keys (m : List (String × String)) : List String :=
  m.map Prod.fst

example :
    (send_message initialState "s1"
      ⟨some ⟨some "A", some "hi"⟩, some "B"⟩).1.store.rows =
      [⟨0, some "A", some "B", some "hi", none, false, "sent", 0⟩] := by decide

example :
    (send_message initialState "s1"
      ⟨some ⟨some "A", some "hi"⟩, some "B"⟩).2 =
      [Emit.direct "s1" (buildSavedMsg ⟨0, some "A", some "B", some "hi", none, false, "sent", 0⟩)] := by
  decide

/-! ### Lemmas about the presence map -/

theorem keys_cons (k v : String) (m : List (String × String)) :
    keys ((k, v) :: m) = k :: keys m := rfl

theorem mapSet_cons_eq (k v v' : String) (m : List (String × String)) :
    mapSet ((k, v') :: m) k v = (k, v) :: m := by
  simp [mapSet]

theorem mapSet_cons_ne (k k' v v' : String) (m : List (String × String))
    (h : k' ≠ k) : mapSet ((k', v') :: m) k v = (k', v') :: mapSet m k v := by
  simp [mapSet, h]

theorem mapDelete_cons_eq (k v' : String) (m : List (String × String)) :
    mapDelete ((k, v') :: m) k = m := by
  simp [mapDelete]

theorem mapDelete_cons_ne (k k' v' : String) (m : List (String × String))
    (h : k' ≠ k) : mapDelete ((k', v') :: m) k = (k', v') :: mapDelete m k := by
  simp [mapDelete, h]

theorem mapGet_cons (k k' v' : String) (m : List (String × String)) :
    mapGet ((k', v') :: m) k = if k' = k then some v' else mapGet m k := rfl

theorem mapGet_mapSet_self (m : List (String × String)) (k v : String) :
    mapGet (mapSet m k v) k = some v := by
  induction m with
  | nil => simp [mapSet, mapGet]
  | cons hd tl ih =>
    obtain ⟨k', v'⟩ := hd
    by_cases h : k' = k
    · subst h
      rw [mapSet_cons_eq, mapGet_cons, if_pos rfl]
    · rw [mapSet_cons_ne _ _ _ _ _ h, mapGet_cons, if_neg h]
      exact ih

theorem mapGet_eq_none_of_not_mem (m : List (String × String)) (k : String)
    (h : k ∉ keys m) : mapGet m k = none := by
  induction m with
  | nil => rfl
  | cons hd tl ih =>
    obtain ⟨k', v'⟩ := hd
    rw [keys_cons, List.mem_cons] at h
    push_neg at h
    rw [mapGet_cons, if_neg (Ne.symm h.1)]
    exact ih h.2

theorem mapGet_mapDelete_self (m : List (String × String)) (k : String)
    (h : (keys m).Nodup) : mapGet (mapDelete m k) k = none := by
  induction m with
  | nil => rfl
  | cons hd tl ih =>
    obtain ⟨k', v'⟩ := hd
    rw [keys_cons, List.nodup_cons] at h
    by_cases hk : k' = k
    · subst hk
      rw [mapDelete_cons_eq]
      exact mapGet_eq_none_of_not_mem tl k' h.1
    · rw [mapDelete_cons_ne _ _ _ _ hk, mapGet_cons, if_neg hk]
      exact ih h.2

theorem mem_keys_mapSet (m : List (String × String)) (k v x : String) :
    x ∈ keys (mapSet m k v) ↔ x = k ∨ x ∈ keys m := by
  induction m with
  | nil => simp [mapSet, keys]
  | cons hd tl ih =>
    obtain ⟨k', v'⟩ := hd
    by_cases h : k' = k
    · subst h
      rw [mapSet_cons_eq, keys_cons, keys_cons]
      simp only [List.mem_cons]
      tauto
    · rw [mapSet_cons_ne _ _ _ _ _ h, keys_cons, keys_cons]
      simp only [List.mem_cons, ih]
      tauto

theorem nodup_keys_mapSet (m : List (String × String)) (k v : String)
    (h : (keys m).Nodup) : (keys (mapSet m k v)).Nodup := by
  induction m with
  | nil => simp [mapSet, keys]
  | cons hd tl ih =>
    obtain ⟨k', v'⟩ := hd
    rw [keys_cons, List.nodup_cons] at h
    by_cases hk : k' = k
    · subst hk
      rw [mapSet_cons_eq, keys_cons, List.nodup_cons]
      exact h
    · rw [mapSet_cons_ne _ _ _ _ _ hk, keys_cons, List.nodup_cons]
      refine ⟨fun hmem => ?_, ih h.2⟩
      rcases (mem_keys_mapSet tl k v k').1 hmem with h1 | h1
      · exact hk h1
      · exact h.1 h1

theorem mapDelete_sublist (m : List (String × String)) (k : String) :
    (mapDelete m k).Sublist m := by
  induction m with
  | nil => exact List.Sublist.refl _
  | cons hd tl ih =>
    obtain ⟨k', v'⟩ := hd
    by_cases h : k' = k
    · rw [h, mapDelete_cons_eq]
      exact List.sublist_cons_self _ _
    · rw [mapDelete_cons_ne _ _ _ _ h]
      exact List.Sublist.cons₂ _ ih

theorem nodup_keys_mapDelete (m : List (String × String)) (k : String)
    (h : (keys m).Nodup) : (keys (mapDelete m k)).Nodup :=
  h.sublist ((mapDelete_sublist m k).map Prod.fst)

/-! ### Lemmas about the handlers -/

theorem send_message_fst_onlineUsers (st : ServerState) (s : String)
    (p : SendPayload) : (send_message st s p).1.onlineUsers = st.onlineUsers := by
  unfold send_message
  split
  · rfl
  · split
    · rfl
    · rfl

theorem step_preserves_nodup (st : ServerState) (e : Event)
    (h : (keys st.onlineUsers).Nodup) : (keys (step st e).onlineUsers).Nodup := by
  cases e with
  | connect u sid =>
    cases u with
    | none => exact h
    | some u' =>
      by_cases hu : u' = ""
      · simpa [step, handleConnect, hu] using h
      · simpa [step, handleConnect, hu] using nodup_keys_mapSet st.onlineUsers u' sid h
  | send s p =>
    simpa [step, send_message_fst_onlineUsers] using h
  | disconnect u sid =>
    cases u with
    | none => exact h
    | some u' =>
      by_cases hu : u' = ""
      · simpa [step, handleDisconnect, hu] using h
      · simpa [step, handleDisconnect, hu] using nodup_keys_mapDelete st.onlineUsers u' h

theorem run_preserves_nodup (st : ServerState) (evs : List Event)
    (h : (keys st.onlineUsers).Nodup) : (keys (run st evs).onlineUsers).Nodup := by
  induction evs generalizing st with
  | nil => exact h
  | cons e es ih => exact ih _ (step_preserves_nodup st e h)

theorem send_message_success_online (st : ServerState) (self : String)
    (m : MsgInner) (rcvId : Option String) (rid : String)
    (hok : st.store.failing = false)
    (hlook : rcvId.bind (fun u => mapGet st.onlineUsers u) = some rid) :
    send_message st self ⟨some m, rcvId⟩ =
      ({ st with store := { st.store with
            rows := st.store.rows ++
              [insertedRecord st.store m.senderId rcvId m.text "sent"],
            nextId := st.store.nextId + 1 } },
       [Emit.toRoom rid
          (buildSavedMsg (insertedRecord st.store m.senderId rcvId m.text "sent")),
        Emit.direct self
          (buildSavedMsg (insertedRecord st.store m.senderId rcvId m.text "sent"))]) := by
  unfold send_message insertMessage
  simp [hok, hlook]

theorem send_message_success_offline (st : ServerState) (self : String)
    (m : MsgInner) (rcvId : Option String)
    (hok : st.store.failing = false)
    (hlook : rcvId.bind (fun u => mapGet st.onlineUsers u) = none) :
    send_message st self ⟨some m, rcvId⟩ =
      ({ st with store := { st.store with
            rows := st.store.rows ++
              [insertedRecord st.store m.senderId rcvId m.text "sent"],
            nextId := st.store.nextId + 1 } },
       [Emit.direct self
          (buildSavedMsg (insertedRecord st.store m.senderId rcvId m.text "sent"))]) := by
  unfold send_message insertMessage
  simp [hok, hlook]

theorem send_message_success_store (st : ServerState) (self : String)
    (m : MsgInner) (rcvId : Option String)
    (hok : st.store.failing = false) :
    (send_message st self ⟨some m, rcvId⟩).1.store =
      { st.store with
        rows := st.store.rows ++
          [insertedRecord st.store m.senderId rcvId m.text "sent"],
        nextId := st.store.nextId + 1 } := by
  rcases hlook : rcvId.bind (fun u => mapGet st.onlineUsers u) with _ | rid
  · rw [send_message_success_offline st self m rcvId hok hlook]
  · rw [send_message_success_online st self m rcvId rid hok hlook]

/-! ### Claim theorems -/

/-- Claim C1: for every send_message invocation with valid senderId,
receiverId and non-empty text whose persistence call succeeds, exactly one
Message Record is persisted (the store rows grow by the single inserted
record) with status "sent", and exactly one confirmation echo — the direct
`socket.emit` on the sender's own connection — carries the payload built
from that record, whatever the outcome of delivery to the receiver. -/
theorem send_message_valid_persists_once_and_echoes_once
    (st : ServerState) (socketSelf : String) (m : MsgInner) (rcv s t : String)
    (hs : m.senderId = some s) (ht : m.text = some t) (hne : t ≠ "")
    (hok : st.store.failing = false) :
    (send_message st socketSelf ⟨some m, some rcv⟩).1.store.rows =
      st.store.rows ++ [insertedRecord st.store m.senderId (some rcv) m.text "sent"] ∧
    (insertedRecord st.store m.senderId (some rcv) m.text "sent").status = "sent" ∧
    (send_message st socketSelf ⟨some m, some rcv⟩).2.filter (fun e => e.isDirect) =
      [Emit.direct socketSelf
        (buildSavedMsg (insertedRecord st.store m.senderId (some rcv) m.text "sent"))] := by
  refine ⟨?_, rfl, ?_⟩
  · rw [send_message_success_store st socketSelf m (some rcv) hok]
  · rcases hlook : (some rcv).bind (fun u => mapGet st.onlineUsers u) with _ | rid
    · rw [send_message_success_offline st socketSelf m (some rcv) hok hlook]
      simp [Emit.isDirect]
    · rw [send_message_success_online st socketSelf m (some rcv) rid hok hlook]
      simp [Emit.isDirect]

/-- Witness for C1: a concrete valid invocation against the initial state. -/
theorem send_message_valid_persists_once_and_echoes_once_witness :
    (send_message initialState "s1" ⟨some ⟨some "A", some "hi"⟩, some "B"⟩).1.store.rows =
      initialState.store.rows ++
        [insertedRecord initialState.store (some "A") (some "B") (some "hi") "sent"] ∧
    (insertedRecord initialState.store (some "A") (some "B") (some "hi") "sent").status = "sent" ∧
    (send_message initialState "s1" ⟨some ⟨some "A", some "hi"⟩, some "B"⟩).2.filter
        (fun e => e.isDirect) =
      [Emit.direct "s1"
        (buildSavedMsg (insertedRecord initialState.store (some "A") (some "B") (some "hi") "sent"))] :=
  send_message_valid_persists_once_and_echoes_once initialState "s1"
    ⟨some "A", some "hi"⟩ "B" "A" "hi" rfl rfl (by decide) rfl

/-- Claim C2 counterexample: a payload whose message object is present but
whose senderId is absent — and likewise one with empty text — is NOT
rejected before persistence: with the store reachable the insert is
attempted and succeeds (those columns are nullable), a record is persisted,
and a confirmation echo is emitted, contradicting the claim that no record
is inserted and no echo is sent. -/
theorem send_message_missing_fields_still_persist_and_echo :
    (send_message initialState "s1" ⟨some ⟨none, some "hi"⟩, some "B"⟩).1.store.rows =
      [⟨0, none, some "B", some "hi", none, false, "sent", 0⟩] ∧
    (send_message initialState "s1" ⟨some ⟨none, some "hi"⟩, some "B"⟩).2 =
      [Emit.direct "s1" (buildSavedMsg ⟨0, none, some "B", some "hi", none, false, "sent", 0⟩)] ∧
    (send_message initialState "s1" ⟨some ⟨some "A", some ""⟩, some "B"⟩).1.store.rows ≠ [] := by
  decide

/-- Claim C2 amended: the handler performs no field validation.  Any payload
whose message object is present goes straight to the persistence insert,
whatever its senderId, receiverId or text (absent fields are inserted as
NULL, empty text as the empty string); when the insert succeeds, the record
is persisted and the echo emitted exactly as on the valid path.  Only a
payload lacking the message object entirely causes no persistence attempt
and no emission (the field access throws and the catch block only logs). -/
theorem send_message_performs_no_validation
    (st : ServerState) (socketSelf : String) (m : MsgInner) (rcvId : Option String)
    (hok : st.store.failing = false) :
    (send_message st socketSelf ⟨some m, rcvId⟩).1.store.rows =
      st.store.rows ++ [insertedRecord st.store m.senderId rcvId m.text "sent"] ∧
    (send_message st socketSelf ⟨some m, rcvId⟩).2.filter (fun e => e.isDirect) =
      [Emit.direct socketSelf
        (buildSavedMsg (insertedRecord st.store m.senderId rcvId m.text "sent"))] ∧
    send_message st socketSelf ⟨none, rcvId⟩ = (st, []) := by
  refine ⟨?_, ?_, rfl⟩
  · rw [send_message_success_store st socketSelf m rcvId hok]
  · rcases hlook : rcvId.bind (fun u => mapGet st.onlineUsers u) with _ | rid
    · rw [send_message_success_offline st socketSelf m rcvId hok hlook]
      simp [Emit.isDirect]
    · rw [send_message_success_online st socketSelf m rcvId rid hok hlook]
      simp [Emit.isDirect]

/-- Witness for the amended C2: a concrete invocation with absent senderId
and empty text still persists and echoes; an absent message object does
nothing. -/
theorem send_message_performs_no_validation_witness :
    (send_message initialState "s1" ⟨some ⟨none, some ""⟩, some "B"⟩).1.store.rows =
      initialState.store.rows ++
        [insertedRecord initialState.store none (some "B") (some "") "sent"] ∧
    (send_message initialState "s1" ⟨some ⟨none, some ""⟩, some "B"⟩).2.filter
        (fun e => e.isDirect) =
      [Emit.direct "s1"
        (buildSavedMsg (insertedRecord initialState.store none (some "B") (some "") "sent"))] ∧
    send_message initialState "s1" ⟨none, some "B"⟩ = (initialState, []) :=
  send_message_performs_no_validation initialState "s1" ⟨none, some ""⟩ (some "B") rfl

/-- Claim C3: when the persistence insert fails, the handler's catch block
only logs: the invocation returns the state unchanged (in particular no row
is added to the store and the presence map is untouched) and emits nothing —
no echo to the sender, no event to the receiver.  The handler is a total
function returning normally, so the failure does not crash the
connection-handling process. -/
theorem send_message_persistence_failure_is_silent
    (st : ServerState) (socketSelf : String) (p : SendPayload)
    (hfail : st.store.failing = true) :
    send_message st socketSelf p = (st, []) := by
  obtain ⟨msg, rcv⟩ := p
  cases msg with
  | none => rfl
  | some m =>
    unfold send_message insertMessage
    simp [hfail]

/-- Witness for C3: a concrete invocation against a failing store, with the
receiver online, produces no state change and no emissions. -/
theorem send_message_persistence_failure_is_silent_witness :
    send_message ⟨[("B", "s2")], ⟨[], 0, 0, true⟩⟩ "s1"
        ⟨some ⟨some "A", some "hi"⟩, some "B"⟩ =
      (⟨[("B", "s2")], ⟨[], 0, 0, true⟩⟩, []) :=
  send_message_persistence_failure_is_silent ⟨[("B", "s2")], ⟨[], 0, 0, true⟩⟩
    "s1" ⟨some ⟨some "A", some "hi"⟩, some "B"⟩ rfl

/-- Claim C4: after a successful persist, if the receiver's user id is
mapped in the presence registry at the post-persistence lookup, the
receiver's socket receives exactly one routed receive_message event whose
content and identifier equal those of the persisted record; if it is not
mapped, there are zero routed events while the record is persisted all the
same. -/
theorem delivery_iff_receiver_registered
    (st : ServerState) (socketSelf : String) (m : MsgInner) (rcvId : Option String)
    (hok : st.store.failing = false) :
    (∀ rid, rcvId.bind (fun u => mapGet st.onlineUsers u) = some rid →
      (send_message st socketSelf ⟨some m, rcvId⟩).2.filter (fun e => e.isToRoom) =
        [Emit.toRoom rid
          (buildSavedMsg (insertedRecord st.store m.senderId rcvId m.text "sent"))] ∧
      (buildSavedMsg (insertedRecord st.store m.senderId rcvId m.text "sent")).content =
        (insertedRecord st.store m.senderId rcvId m.text "sent").content ∧
      (buildSavedMsg (insertedRecord st.store m.senderId rcvId m.text "sent")).id =
        (insertedRecord st.store m.senderId rcvId m.text "sent").id ∧
      (send_message st socketSelf ⟨some m, rcvId⟩).1.store.rows =
        st.store.rows ++ [insertedRecord st.store m.senderId rcvId m.text "sent"]) ∧
    (rcvId.bind (fun u => mapGet st.onlineUsers u) = none →
      (send_message st socketSelf ⟨some m, rcvId⟩).2.filter (fun e => e.isToRoom) = [] ∧
      (send_message st socketSelf ⟨some m, rcvId⟩).1.store.rows =
        st.store.rows ++ [insertedRecord st.store m.senderId rcvId m.text "sent"]) := by
  constructor
  · intro rid hlook
    rw [send_message_success_online st socketSelf m rcvId rid hok hlook]
    refine ⟨?_, rfl, rfl, ?_⟩
    · simp [Emit.isToRoom]
    · rfl
  · intro hlook
    rw [send_message_success_offline st socketSelf m rcvId hok hlook]
    exact ⟨by simp [Emit.isToRoom], rfl⟩

/-- Witness for C4: with B online (mapped to socket s2) the routed delivery
is exactly one event; with B offline (initial state) it is zero while the
record is still appended. -/
theorem delivery_iff_receiver_registered_witness :
    ((send_message ⟨[("B", "s2")], ⟨[], 0, 0, false⟩⟩ "s1"
        ⟨some ⟨some "A", some "hi"⟩, some "B"⟩).2.filter (fun e => e.isToRoom) =
      [Emit.toRoom "s2"
        (buildSavedMsg (insertedRecord ⟨[], 0, 0, false⟩ (some "A") (some "B") (some "hi") "sent"))]) ∧
    ((send_message initialState "s1"
        ⟨some ⟨some "A", some "hi"⟩, some "B"⟩).2.filter (fun e => e.isToRoom) = []) ∧
    ((send_message initialState "s1"
        ⟨some ⟨some "A", some "hi"⟩, some "B"⟩).1.store.rows =
      initialState.store.rows ++
        [insertedRecord initialState.store (some "A") (some "B") (some "hi") "sent"]) :=
  ⟨((delivery_iff_receiver_registered ⟨[("B", "s2")], ⟨[], 0, 0, false⟩⟩ "s1"
      ⟨some "A", some "hi"⟩ (some "B") rfl).1 "s2" rfl).1,
   ((delivery_iff_receiver_registered initialState "s1"
      ⟨some "A", some "hi"⟩ (some "B") rfl).2 rfl).1,
   ((delivery_iff_receiver_registered initialState "s1"
      ⟨some "A", some "hi"⟩ (some "B") rfl).2 rfl).2⟩

/-- Claim C5: register is last-write-wins.  Registering user u on
connection c1 and then on c2 — from any prior state — leaves the lookup for
u returning c2, and never c1 (when the handles differ); the register path
is an unconditional upsert with no error condition. -/
theorem register_last_write_wins
    (st : ServerState) (u c1 c2 : String) (hu : u ≠ "") :
    mapGet (handleConnect (handleConnect st (some u) c1) (some u) c2).onlineUsers u = some c2 ∧
    (c1 ≠ c2 →
      mapGet (handleConnect (handleConnect st (some u) c1) (some u) c2).onlineUsers u ≠ some c1) := by
  have hget :
      mapGet (handleConnect (handleConnect st (some u) c1) (some u) c2).onlineUsers u = some c2 := by
    simp [handleConnect, hu, mapGet_mapSet_self]
  refine ⟨hget, fun hne heq => ?_⟩
  rw [hget] at heq
  exact hne (Option.some.inj heq).symm

/-- Witness for C5 at concrete user and connection handles. -/
theorem register_last_write_wins_witness :
    mapGet (handleConnect (handleConnect initialState (some "u") "c1")
      (some "u") "c2").onlineUsers "u" = some "c2" ∧
    mapGet (handleConnect (handleConnect initialState (some "u") "c1")
      (some "u") "c2").onlineUsers "u" ≠ some "c1" :=
  ⟨(register_last_write_wins initialState "u" "c1" "c2" (by decide)).1,
   (register_last_write_wins initialState "u" "c1" "c2" (by decide)).2 (by decide)⟩

/-- Claim C6 counterexample: after u connects on c1 and then on c2 (so u is
mapped to c2), the disconnect of the superseded connection c1 — the handler
deletes by the captured user id only, ignoring which socket disconnects —
removes the newer entry: the lookup returns none, not c2.  The stale
unregister is not a no-op, contrary to the claim. -/
theorem stale_disconnect_removes_newer_entry :
    mapGet (handleDisconnect
      (handleConnect (handleConnect initialState (some "u") "c1") (some "u") "c2")
      (some "u") "c1").onlineUsers "u" = none ∧
    mapGet (handleDisconnect
      (handleConnect (handleConnect initialState (some "u") "c1") (some "u") "c2")
      (some "u") "c1").onlineUsers "u" ≠ some "c2" := by
  decide

/-- Claim C6 amended: unregister is an unconditional delete by user id.  A
disconnect of the connection currently mapped for u removes the entry — but
so does a disconnect of a stale/superseded connection for the same u, since
the handler never compares the disconnecting socket with the mapped one:
for every state whose presence keys are duplicate-free and every
disconnecting socket id, the lookup for u afterwards returns none. -/
theorem unregister_is_unconditional_delete
    (st : ServerState) (u sid : String) (hu : u ≠ "")
    (hnd : (keys st.onlineUsers).Nodup) :
    mapGet (handleDisconnect st (some u) sid).onlineUsers u = none := by
  have hdel : handleDisconnect st (some u) sid =
      { st with onlineUsers := mapDelete st.onlineUsers u } := by
    simp [handleDisconnect, hu]
  rw [hdel]
  exact mapGet_mapDelete_self st.onlineUsers u hnd

/-- Witness for the amended C6: the stale socket c1 disconnecting still
erases the entry u ↦ c2. -/
theorem unregister_is_unconditional_delete_witness :
    mapGet (handleDisconnect ⟨[("u", "c2")], ⟨[], 0, 0, false⟩⟩
      (some "u") "c1").onlineUsers "u" = none :=
  unregister_is_unconditional_delete ⟨[("u", "c2")], ⟨[], 0, 0, false⟩⟩
    "u" "c1" (by decide) (by decide)

/-- Claim C7: presence registry invariant — starting from process start,
after any interleaving of connect, send_message and disconnect events, the
registry holds at most one entry per user identifier (its key list is
duplicate-free); hence every operation the handlers perform preserves the
invariant. -/
theorem presence_at_most_one_entry_per_user (evs : List Event) :
    (keys (run initialState evs).onlineUsers).Nodup :=
  run_preserves_nodup initialState evs (by simp [initialState, keys])

/-- Claim C8: the relay is non-idempotent — two invocations with the same
payload, both persisting successfully, append two records, and the ids the
store assigns to them differ (the id counter advances), so no deduplication
occurs. -/
theorem relay_twice_persists_two_distinct_records
    (st : ServerState) (socketSelf : String) (m : MsgInner) (rcvId : Option String)
    (hok : st.store.failing = false) :
    (send_message (send_message st socketSelf ⟨some m, rcvId⟩).1 socketSelf
        ⟨some m, rcvId⟩).1.store.rows =
      st.store.rows ++
        [insertedRecord st.store m.senderId rcvId m.text "sent",
         insertedRecord (send_message st socketSelf ⟨some m, rcvId⟩).1.store
           m.senderId rcvId m.text "sent"] ∧
    (insertedRecord st.store m.senderId rcvId m.text "sent").id ≠
      (insertedRecord (send_message st socketSelf ⟨some m, rcvId⟩).1.store
        m.senderId rcvId m.text "sent").id := by
  have h1 := send_message_success_store st socketSelf m rcvId hok
  have hfail2 : (send_message st socketSelf ⟨some m, rcvId⟩).1.store.failing = false := by
    rw [h1]
    exact hok
  have h2 := send_message_success_store (send_message st socketSelf ⟨some m, rcvId⟩).1
    socketSelf m rcvId hfail2
  constructor
  · rw [h2]
    have hrows : (send_message st socketSelf ⟨some m, rcvId⟩).1.store.rows =
        st.store.rows ++ [insertedRecord st.store m.senderId rcvId m.text "sent"] := by
      rw [h1]
    rw [hrows]
    simp
  · rw [h1]
    simp [insertedRecord]

/-- Witness for C8: sending the same payload twice from the initial state
yields rows with ids 0 and 1. -/
theorem relay_twice_persists_two_distinct_records_witness :
    (send_message (send_message initialState "s1" ⟨some ⟨some "A", some "hi"⟩, some "B"⟩).1
        "s1" ⟨some ⟨some "A", some "hi"⟩, some "B"⟩).1.store.rows =
      initialState.store.rows ++
        [insertedRecord initialState.store (some "A") (some "B") (some "hi") "sent",
         insertedRecord (send_message initialState "s1"
             ⟨some ⟨some "A", some "hi"⟩, some "B"⟩).1.store
           (some "A") (some "B") (some "hi") "sent"] ∧
    (insertedRecord initialState.store (some "A") (some "B") (some "hi") "sent").id ≠
      (insertedRecord (send_message initialState "s1"
          ⟨some ⟨some "A", some "hi"⟩, some "B"⟩).1.store
        (some "A") (some "B") (some "hi") "sent").id :=
  relay_twice_persists_two_distinct_records initialState "s1"
    ⟨some "A", some "hi"⟩ (some "B") rfl

/-- Claim C9: frame property — the send_message handler never mutates the
presence registry: for every state and payload (validation-dropped,
persistence-failed or successful alike) the map after the invocation equals
the map before it, also when the invocation is taken as a step of the event
system. -/
theorem send_message_never_mutates_presence
    (st : ServerState) (socketSelf : String) (p : SendPayload) :
    (send_message st socketSelf p).1.onlineUsers = st.onlineUsers ∧
    (step st (Event.send socketSelf p)).onlineUsers = st.onlineUsers :=
  ⟨send_message_fst_onlineUsers st socketSelf p,
   send_message_fst_onlineUsers st socketSelf p⟩

/-- Claim C10 (implicit): the confirmation echo is emitted directly on the
sending connection (`socket.emit`), not resolved through a presence lookup
of senderId: for every presence map — including one where the sender's id
was never registered, or is mapped to a different, newer socket — the
direct emissions of a successful invocation are exactly one echo to the
handling socket itself. -/
theorem echo_on_own_socket_independent_of_registry
    (st : ServerState) (socketSelf : String) (m : MsgInner) (rcvId : Option String)
    (hok : st.store.failing = false) :
    (send_message st socketSelf ⟨some m, rcvId⟩).2.filter (fun e => e.isDirect) =
      [Emit.direct socketSelf
        (buildSavedMsg (insertedRecord st.store m.senderId rcvId m.text "sent"))] := by
  rcases hlook : rcvId.bind (fun u => mapGet st.onlineUsers u) with _ | rid
  · rw [send_message_success_offline st socketSelf m rcvId hok hlook]
    simp [Emit.isDirect]
  · rw [send_message_success_online st socketSelf m rcvId rid hok hlook]
    simp [Emit.isDirect]

/-- Witness for C10: the sender claims id A, but A is mapped to a different
socket s9 (its presence entry was overwritten); the echo still goes to the
sending socket s1. -/
theorem echo_on_own_socket_independent_of_registry_witness :
    (send_message ⟨[("A", "s9")], ⟨[], 0, 0, false⟩⟩ "s1"
        ⟨some ⟨some "A", some "hi"⟩, some "B"⟩).2.filter (fun e => e.isDirect) =
      [Emit.direct "s1"
        (buildSavedMsg (insertedRecord ⟨[], 0, 0, false⟩ (some "A") (some "B") (some "hi") "sent"))] :=
  echo_on_own_socket_independent_of_registry ⟨[("A", "s9")], ⟨[], 0, 0, false⟩⟩
    "s1" ⟨some "A", some "hi"⟩ (some "B") rfl
